import Mathlib

/-!
Shallow embedding of `src/aficio2060/accounts.py` (python-aficio2060): the
account domain model (`UserStatistics`, `UserRestrict`, `User`) and the
`UserMaintSession` operations the specification's claims are about, with
theorems checking those claims against the embedding.

Modelling conventions:
* Python objects become Lean structures; property setters become pure
  functions returning the updated record.
* `raise` becomes `Except.error`; a Python `AttributeError` (access to an
  attribute an object does not define) is made explicit through an `Option`
  or a dedicated error constructor.
* The SOAP backend is external: its responses enter the model as explicit
  parameters, and the backend calls a method performs are recorded in an
  explicit operation trace.  The directory backend state touched by
  `delete_user` is modelled as a map from entry keys to the written
  authentication property value.
* Python `int` is embedded as `Int`; `int(...)` applied to a string is
  `String.toInt?`, with `none` standing for the `ValueError` raise.
-/

/-- The error class `UserMaintError(RuntimeError)` (accounts.py:34-37): a
message and an optional backend status code. -/
structure UserMaintError where
  msg : String
  code : Option Int
deriving DecidableEq

/-- One `{name, value, type}` triple of a SOAP field list
(the wire shape produced by `to_fieldList` and consumed by
`from_soap_object`). -/
structure FieldItem where
  name : String
  value : String
  type : String
deriving DecidableEq

/-- `UserStatistics` (accounts.py:39-172): six page counters plus the
`modified` dirty flag. -/
structure UserStatistics where
  copy_a4 : Int
  copy_a3 : Int
  print_a4 : Int
  print_a3 : Int
  scan_a4 : Int
  scan_a3 : Int
  modified : Bool
deriving DecidableEq

/-- `UserStatistics.__init__` (accounts.py:57-65): stores the six counters
(all defaulting to 0 in the source) and sets `modified = False`. -/
def UserStatistics.make (copy_a4 copy_a3 print_a4 print_a3 scan_a4 scan_a3 : Int) :
    UserStatistics :=
  { copy_a4, copy_a3, print_a4, print_a3, scan_a4, scan_a3, modified := false }

/-- `UserStatistics.set_copy_a4` (accounts.py:83-85): sets `modified = True`
unconditionally, then stores the value. -/
def UserStatistics.set_copy_a4 (s : UserStatistics) (val : Int) : UserStatistics :=
  { s with modified := true, copy_a4 := val }

/-- `UserStatistics.set_copy_a3` (accounts.py:90-92). -/
def UserStatistics.set_copy_a3 (s : UserStatistics) (val : Int) : UserStatistics :=
  { s with modified := true, copy_a3 := val }

/-- `UserStatistics.set_print_a4` (accounts.py:97-99). -/
def UserStatistics.set_print_a4 (s : UserStatistics) (val : Int) : UserStatistics :=
  { s with modified := true, print_a4 := val }

/-- `UserStatistics.set_print_a3` (accounts.py:104-106). -/
def UserStatistics.set_print_a3 (s : UserStatistics) (val : Int) : UserStatistics :=
  { s with modified := true, print_a3 := val }

/-- `UserStatistics.set_scan_a4` (accounts.py:111-113). -/
def UserStatistics.set_scan_a4 (s : UserStatistics) (val : Int) : UserStatistics :=
  { s with modified := true, scan_a4 := val }

/-- `UserStatistics.set_scan_a3` (accounts.py:118-120). -/
def UserStatistics.set_scan_a3 (s : UserStatistics) (val : Int) : UserStatistics :=
  { s with modified := true, scan_a3 := val }

/-- Python attribute lookup on a `UserStatistics` object, restricted to the
integer-valued attributes and properties the class defines
(accounts.py:81-133).  Any other name is an `AttributeError`, embedded as
`none`. -/
def UserStatistics.getattr (s : UserStatistics) (attr : String) : Option Int :=
  if attr = "copy_a4" then some s.copy_a4
  else if attr = "copy_a3" then some s.copy_a3
  else if attr = "print_a4" then some s.print_a4
  else if attr = "print_a3" then some s.print_a3
  else if attr = "scan_a4" then some s.scan_a4
  else if attr = "scan_a3" then some s.scan_a3
  else if attr = "copy_a4_total" then some (s.copy_a4 + s.copy_a3 * 2)
  else if attr = "print_a4_total" then some (s.print_a4 + s.print_a3 * 2)
  else if attr = "scan_a4_total" then some (s.scan_a4 + s.scan_a3 * 2)
  else none

/-- `UserStatistics.to_fieldList` (accounts.py:164-172).  The source reads
`self.copy_a4`, `self.copy_a3` and then `self.printer_a4`, `self.printer_a3`,
`self.scanner_a4`, `self.scanner_a3`; the latter four attribute names are not
defined by the class (its counters are `print_a4`, `print_a3`, `scan_a4`,
`scan_a3`), so the lookups go through `UserStatistics.getattr` and the result
is an `Option`, `none` standing for the `AttributeError` raise. -/
def UserStatistics.to_fieldList (s : UserStatistics) : Option (List FieldItem) := do
  let c4 ← s.getattr "copy_a4"
  let c3 ← s.getattr "copy_a3"
  let p4 ← s.getattr "printer_a4"
  let p3 ← s.getattr "printer_a3"
  let s4 ← s.getattr "scanner_a4"
  let s3 ← s.getattr "scanner_a3"
  pure [ { name := "copyBlack", value := toString c4, type := "DM_FIELD_UNSIGNED_INT" },
         { name := "copyBlackA3Over", value := toString c3, type := "DM_FIELD_UNSIGNED_INT" },
         { name := "printerBlack", value := toString p4, type := "DM_FIELD_UNSIGNED_INT" },
         { name := "printerBlackA3Over", value := toString p3, type := "DM_FIELD_UNSIGNED_INT" },
         { name := "scannerBlack", value := toString s4, type := "DM_FIELD_UNSIGNED_INT" },
         { name := "scannerBlackA3Over", value := toString s3, type := "DM_FIELD_UNSIGNED_INT" } ]

/-- Decimal value of a digit sequence; `none` when empty or when any
character is not a digit. -/
def digitsVal (l : List Char) : Option Nat :=
  if l.isEmpty then none
  else l.foldl
    (fun acc c => acc.bind (fun a => if c.isDigit then some (a * 10 + (c.toNat - 48)) else none))
    (some 0)

/-- `int(...)` applied to a string: an optional minus sign followed by
decimal digits; anything else is the `ValueError` raise, embedded as
`none`. -/
def pyInt (s : String) : Option Int :=
  match s.data with
  | '-' :: rest => (digitsVal rest).map (fun n => -(n : Int))
  | l => (digitsVal l).map (fun n => (n : Int))

/-- One iteration of the `for item in items` loop of
`UserStatistics.from_soap_object` (accounts.py:149-161): six independent
`if` tests, each re-binding one local from `int(item.value)`. -/
def statReadItem (acc : Int × Int × Int × Int × Int × Int) (item : FieldItem) :
    Option (Int × Int × Int × Int × Int × Int) := do
  let c4 ← if item.name = "copyBlack" then pyInt item.value else pure acc.1
  let c3 ← if item.name = "copyBlackA3Over" then pyInt item.value else pure acc.2.1
  let p4 ← if item.name = "printerBlack" then pyInt item.value else pure acc.2.2.1
  let p3 ← if item.name = "printerBlackA3Over" then pyInt item.value else pure acc.2.2.2.1
  let s4 ← if item.name = "scannerBlack" then pyInt item.value else pure acc.2.2.2.2.1
  let s3 ← if item.name = "scannerBlackA3Over" then pyInt item.value else pure acc.2.2.2.2.2
  pure (c4, c3, p4, p3, s4, s3)

/-- `UserStatistics.from_soap_object` (accounts.py:140-162), taking the
`obj.fieldList.item` sequence directly.  Locals start at zero; each matching
item overwrites one of them; the result is built with the constructor, so
`modified = False`. -/
def UserStatistics.from_soap_object (items : List FieldItem) : Option UserStatistics := do
  let r ← items.foldlM statReadItem (0, 0, 0, 0, 0, 0)
  pure (UserStatistics.make r.1 r.2.1 r.2.2.1 r.2.2.2.1 r.2.2.2.2.1 r.2.2.2.2.2)

/-- `UserRestrict` (accounts.py:174-269): four boolean grants plus the
`modified` dirty flag. -/
structure UserRestrict where
  grant_copy : Bool
  grant_printer : Bool
  grant_scanner : Bool
  grant_storage : Bool
  modified : Bool
deriving DecidableEq

/-- `UserRestrict.__init__` (accounts.py:189-195): stores the four grants
(all defaulting to `False` in the source) and sets `modified = False`. -/
def UserRestrict.make (grant_copy grant_printer grant_scanner grant_storage : Bool) :
    UserRestrict :=
  { grant_copy, grant_printer, grant_scanner, grant_storage, modified := false }

/-- `UserRestrict._set_grant_copy` (accounts.py:203-206): sets
`modified = True` only when the new value differs from the current one, then
stores the value. -/
def UserRestrict.set_grant_copy (r : UserRestrict) (copy : Bool) : UserRestrict :=
  { r with modified := if copy ≠ r.grant_copy then true else r.modified,
           grant_copy := copy }

/-- `UserRestrict._set_grant_printer` (accounts.py:211-214). -/
def UserRestrict.set_grant_printer (r : UserRestrict) (printer : Bool) : UserRestrict :=
  { r with modified := if printer ≠ r.grant_printer then true else r.modified,
           grant_printer := printer }

/-- `UserRestrict._set_grant_scanner` (accounts.py:219-222). -/
def UserRestrict.set_grant_scanner (r : UserRestrict) (scanner : Bool) : UserRestrict :=
  { r with modified := if scanner ≠ r.grant_scanner then true else r.modified,
           grant_scanner := scanner }

/-- `UserRestrict._set_grant_storage` (accounts.py:227-230). -/
def UserRestrict.set_grant_storage (r : UserRestrict) (storage : Bool) : UserRestrict :=
  { r with modified := if storage ≠ r.grant_storage then true else r.modified,
           grant_storage := storage }

/-- `UserRestrict.revoke_all` (accounts.py:233-238): assigns `False` to all
four grants through the property setters, in source order. -/
def UserRestrict.revoke_all (r : UserRestrict) : UserRestrict :=
  (((r.set_grant_copy false).set_grant_printer false).set_grant_scanner
      false).set_grant_storage false

/-- `UserRestrict.has_any_permissions` (accounts.py:240-243). -/
def UserRestrict.has_any_permissions (r : UserRestrict) : Bool :=
  r.grant_copy || r.grant_printer || r.grant_scanner || r.grant_storage

/-- `UserRestrict.from_soap_object` (accounts.py:245-261), taking the
`obj.fieldList.item` sequence directly.  A grant becomes `True` when an item
matches the field name with the value `"OFF"`; locals start at `False`; the
result is built with the constructor, so `modified = False`. -/
def UserRestrict.from_soap_object (items : List FieldItem) : UserRestrict :=
  let g := items.foldl
    (fun (g : Bool × Bool × Bool × Bool) item =>
      ( if item.name = "copyBlack" ∧ item.value = "OFF" then true else g.1,
        if item.name = "printerBlack" ∧ item.value = "OFF" then true else g.2.1,
        if item.name = "scannerBlack" ∧ item.value = "OFF" then true else g.2.2.1,
        if item.name = "localStorage" ∧ item.value = "OFF" then true else g.2.2.2 ))
    (false, false, false, false)
  UserRestrict.make g.1 g.2.1 g.2.2.1 g.2.2.2

/-- `UserRestrict.to_fieldList` (accounts.py:263-269). -/
def UserRestrict.to_fieldList (r : UserRestrict) : List FieldItem :=
  [ { name := "copyBlack", value := if r.grant_copy then "OFF" else "ON",
      type := "DM_FIELD_ENUM" },
    { name := "printerBlack", value := if r.grant_printer then "OFF" else "ON",
      type := "DM_FIELD_ENUM" },
    { name := "scannerBlack", value := if r.grant_scanner then "OFF" else "ON",
      type := "DM_FIELD_ENUM" },
    { name := "localStorage", value := if r.grant_storage then "OFF" else "ON",
      type := "DM_FIELD_ENUM" } ]

/-- `User` (accounts.py:271-378).  Fields mirror the instance attributes a
constructed object carries:

* `_orig_user_code` models the optionally-present `_orig_user_code`
  attribute (`none` = attribute absent);
* `restrict` is the plain `restrict` instance attribute assigned by
  `__init__` (accounts.py:287) and by the session's load loop
  (accounts.py:425);
* `_restriction` models the separate, optionally-present `_restriction`
  attribute that only the `restriction` property setter
  (accounts.py:346-349) assigns — it is a different slot from `restrict`;
* `stats` is the `_stats` attribute behind the `stats` property. -/
structure User where
  user_code : Int
  _orig_user_code : Option Int
  name : String
  internal_name : Option Int
  restrict : Option UserRestrict
  stats : Option UserStatistics
  _restriction : Option (Option UserRestrict)
deriving DecidableEq

/-- `User.MAX_NAME_LEN` (accounts.py:281). -/
def User.MAX_NAME_LEN : Nat := 20

/-- The message built by `User._set_name` for an over-long name
(accounts.py:323-324). -/
def nameTooLongMsg (name : String) : String :=
  "user name \"" ++ name ++ "\" too long, max 20 characters"

/-- `User.__init__` (accounts.py:283-288).  `self.user_code = user_code` goes
through `_set_user_code`, which captures nothing on a fresh object (neither
`_orig_user_code` nor `_user_code` exist yet); `self.name = name` goes
through `_set_name`, which validates the length and may raise;
`self.restrict = restrict` is a plain attribute assignment (the property is
named `restriction`, so no dirty-marking happens); `self.stats = stats` goes
through `_set_stats`, which marks a non-null statistics object modified. -/
def User.make (user_code : Int) (name : String) (restrict : Option UserRestrict)
    (stats : Option UserStatistics) (internal_name : Option Int) :
    Except UserMaintError User :=
  if name.length > User.MAX_NAME_LEN then
    Except.error { msg := nameTooLongMsg name, code := none }
  else
    Except.ok { user_code, _orig_user_code := none, name, internal_name,
                restrict,
                stats := stats.map (fun st => { st with modified := true }),
                _restriction := none }

/-- `User._set_user_code` (accounts.py:290-297), on a constructed object:
if `_orig_user_code` is absent it is captured as the current `_user_code`
(which always exists after `__init__`), then the new code is stored. -/
def User.set_user_code (u : User) (user_code : Int) : User :=
  { u with
    _orig_user_code :=
      match u._orig_user_code with
      | some o => some o
      | none => some u.user_code,
    user_code := user_code }

/-- `User._get_orig_user_code` (accounts.py:303-308): the captured value when
present, the current code otherwise. -/
def User.orig_user_code (u : User) : Int :=
  u._orig_user_code.getD u.user_code

/-- `User.notify_flushed` (accounts.py:311-319): drops the captured original
code and clears the dirty flags of the attached `stats` and `restrict`
objects (each only touched when present and modified). -/
def User.notify_flushed (u : User) : User :=
  { u with
    _orig_user_code := none,
    stats := u.stats.map (fun st => if st.modified then { st with modified := false } else st),
    restrict := u.restrict.map (fun r => if r.modified then { r with modified := false } else r) }

/-- `User._set_name` (accounts.py:321-325): raises `UserMaintError` for a
name longer than `MAX_NAME_LEN` before assigning, so on error the stored
name is untouched (the caller keeps the unchanged record). -/
def User.set_name (u : User) (name : String) : Except UserMaintError User :=
  if name.length > User.MAX_NAME_LEN then
    Except.error { msg := nameTooLongMsg name, code := none }
  else
    Except.ok { u with name := name }

/-- `User._set_restriction` (accounts.py:346-349), the `restriction` property
setter: stores into the `_restriction` slot and marks a non-null argument
modified.  Note this is a different slot from the plain `restrict`
attribute the session code uses. -/
def User.set_restriction (u : User) (restriction : Option UserRestrict) : User :=
  { u with _restriction := some (restriction.map (fun x => { x with modified := true })) }

/-- The plain attribute assignment `user.restrict = ...` as performed by
`User.__init__` (accounts.py:287) and the session's restriction attach loop
(accounts.py:425): no property is involved and no dirty flag is touched. -/
def User.attach_restrict (u : User) (r : Option UserRestrict) : User :=
  { u with restrict := r }

/-- `str(...)` of the optional internal name, as used by
`"entry:" + str(user.internal_name)`; Python renders `None` as `"None"`
without raising. -/
def pyStr (i : Option Int) : String :=
  match i with
  | none => "None"
  | some n => toString n

/-- The deterministic restriction/counter object identifier
`int("110002" + str(internal_name))` (accounts.py:452, 519, 527). -/
def oidFor (internal_name : Int) : Option Int :=
  pyInt ("110002" ++ toString internal_name)

/-- `UserMaintSession.get_user_info` (accounts.py:476-492): a linear scan of
the cached users for the first one whose `user_code` matches; `None` when
absent.  The `req_*` flags of the source are accepted and ignored. -/
def UserMaintSession.get_user_info (users : List User) (user_code : Int) : Option User :=
  users.find? (fun u => decide (u.user_code = user_code))

/-- One backend call of the directory service, as recorded in the operation
trace of `delete_user`. -/
inductive UdOp where
  | startSession (mode : String)
  | putObjectProps (entry : String) (propName : String) (propVal : String)
  | terminateSession
deriving DecidableEq

/-- `UserMaintSession.delete_user` (accounts.py:461-473).  Looks the account
up in the cache (which it never mutates); when absent it returns with no
backend call; when present it opens an exclusive directory sub-session,
writes the `auth:` property of the entry to `"false"` (soft delete) and
closes the sub-session.  No response is inspected and no raise statement
exists, so the embedding is total.  Returns the trace of directory calls and
the updated directory state (entry key to written `auth:` value). -/
def UserMaintSession.delete_user (users : List User) (dir : String → Option String)
    (user_code : Int) : List UdOp × (String → Option String) :=
  match UserMaintSession.get_user_info users user_code with
  | none => ([], dir)
  | some u =>
    ([UdOp.startSession "X",
      UdOp.putObjectProps ("entry:" ++ pyStr u.internal_name) "auth:" "false",
      UdOp.terminateSession],
     Function.update dir ("entry:" ++ pyStr u.internal_name) (some "false"))

/-- A Python-level error raised inside `set_user_info`. -/
inductive PyError where
  | maint (e : UserMaintError)
  | attributeError (attr : String)
  | typeError (msg : String)
deriving DecidableEq

/-- One backend call of the device-management service, as recorded in the
operation trace of `set_user_info`. -/
inductive DmOp where
  | startSession
  | lockDevice
  | updateObject (cls : String) (oid : Int) (fieldList : List FieldItem)
  | unlockDevice
  | terminateSession
deriving DecidableEq

/-- Whether a device-management operation is the statistics
(`usageCounter.userCounter`) write. -/
def DmOp.isCounterUpdate : DmOp → Bool
  | DmOp.updateObject cls _ _ => cls == "usageCounter.userCounter"
  | _ => false

/-- `UserMaintSession.set_user_info` (accounts.py:509-535).  The backend's
`returnValue` for the restriction write and for the statistics write enter
as the parameters `restrictResp` and `statsResp`; the source's
`response.returnValue is not "OK"` identity test is embedded as value
inequality with `"OK"` (for a backend-reported non-success value the two
agree).  The function returns the trace of device-management calls actually
performed before returning or raising, and either the flushed user or the
error raised.  Mirrors the source exactly: on a failed restriction write it
raises at accounts.py:523, before `UnlockDevice` and `TerminateSession`
ever run; a dirty statistics write first evaluates
`user.stats.to_fieldList()`, whose broken attribute reads raise. -/
def UserMaintSession.set_user_info (restrictResp statsResp : String) (u : User) :
    List DmOp × Except PyError User :=
  let ops0 : List DmOp := [DmOp.startSession, DmOp.lockDevice]
  let finish : List DmOp → List DmOp × Except PyError User := fun ops =>
    (ops ++ [DmOp.unlockDevice, DmOp.terminateSession], Except.ok u.notify_flushed)
  let statsStep : List DmOp → List DmOp × Except PyError User := fun ops =>
    match u.stats with
    | none => (ops, Except.error (PyError.attributeError "modified"))
    | some st =>
      if st.modified then
        match u.internal_name with
        | none => (ops, Except.error (PyError.typeError "int() argument"))
        | some iname =>
          match oidFor iname with
          | none => (ops, Except.error (PyError.typeError "invalid literal for int()"))
          | some oid =>
            match st.to_fieldList with
            | none => (ops, Except.error (PyError.attributeError "printer_a4"))
            | some fl =>
              let ops1 := ops ++ [DmOp.updateObject "usageCounter.userCounter" oid fl]
              if statsResp ≠ "OK" then
                (ops1, Except.error (PyError.maint
                  { msg := "Could not update the user counter for user " ++ u.name,
                    code := none }))
              else finish ops1
      else finish ops
  match u.restrict with
  | none => (ops0, Except.error (PyError.attributeError "modified"))
  | some r =>
    if r.modified then
      match u.internal_name with
      | none => (ops0, Except.error (PyError.typeError "int() argument"))
      | some iname =>
        match oidFor iname with
        | none => (ops0, Except.error (PyError.typeError "invalid literal for int()"))
        | some oid =>
          let ops1 := ops0 ++ [DmOp.updateObject "usageControl.userRestrict" oid r.to_fieldList]
          if restrictResp ≠ "OK" then
            (ops1, Except.error (PyError.maint
              { msg := "Could not update the user restrictions for user " ++ u.name,
                code := none }))
          else statsStep ops1
    else statsStep ops0

/-! ## Claim theorems -/

/-- C2: the claim asks for the round-trip law
`from_soap_object (to_fieldList s) = s` with dirty cleared; on the source it
fails before any field list exists, because `to_fieldList` reads attributes
(`printer_a4`, `printer_a3`, `scanner_a4`, `scanner_a3`) the class does not
define.  This theorem evaluates the code on every instance: the encode step
raises `AttributeError` (embedded as `none`), so no field list is ever
produced. -/
theorem stats_to_fieldList_attribute_error (s : UserStatistics) :
    s.to_fieldList = none := rfl

/-- C4 counterexample: the claim says the dirty flag is true on construction;
`UserStatistics.__init__` sets `modified = False`, refuted at the default
all-zero instance. -/
theorem stats_constructed_dirty_cex :
    ¬ ((UserStatistics.make 0 0 0 0 0 0).modified = true) := by
  decide

/-- C4 (amended): a `UserStatistics` instance has its dirty flag false on
construction, and every individual counter write sets the dirty flag, even
when the written value equals the current value. -/
theorem stats_write_always_marks_dirty
    (c4 c3 p4 p3 s4 s3 v : Int) (s : UserStatistics) :
    (UserStatistics.make c4 c3 p4 p3 s4 s3).modified = false ∧
    (s.set_copy_a4 v).modified = true ∧
    (s.set_copy_a3 v).modified = true ∧
    (s.set_print_a4 v).modified = true ∧
    (s.set_print_a3 v).modified = true ∧
    (s.set_scan_a4 v).modified = true ∧
    (s.set_scan_a3 v).modified = true :=
  ⟨rfl, rfl, rfl, rfl, rfl, rfl, rfl⟩

/-- C6: every `UserRestrict` grant setter stores the written value, and the
dirty flag after the write equals the old flag joined with whether the new
value differs from the current one — so writing the current value leaves the
flag unchanged (in particular unset if it was unset) and writing a different
value sets it. -/
theorem restrict_setter_change_detection (r : UserRestrict) (v : Bool) :
    ((r.set_grant_copy v).grant_copy = v ∧
      (r.set_grant_copy v).modified = (r.modified || (v != r.grant_copy))) ∧
    ((r.set_grant_printer v).grant_printer = v ∧
      (r.set_grant_printer v).modified = (r.modified || (v != r.grant_printer))) ∧
    ((r.set_grant_scanner v).grant_scanner = v ∧
      (r.set_grant_scanner v).modified = (r.modified || (v != r.grant_scanner))) ∧
    ((r.set_grant_storage v).grant_storage = v ∧
      (r.set_grant_storage v).modified = (r.modified || (v != r.grant_storage))) := by
  rcases r with ⟨c, p, s, st, m⟩
  cases v <;> cases c <;> cases p <;> cases s <;> cases st <;> cases m <;> decide

/-- C7: for every combination of the four boolean grants, decoding the field
list produced by `to_fieldList` yields an instance with equal grant
values. -/
theorem restrict_fieldList_roundtrip (r : UserRestrict) :
    (UserRestrict.from_soap_object r.to_fieldList).grant_copy = r.grant_copy ∧
    (UserRestrict.from_soap_object r.to_fieldList).grant_printer = r.grant_printer ∧
    (UserRestrict.from_soap_object r.to_fieldList).grant_scanner = r.grant_scanner ∧
    (UserRestrict.from_soap_object r.to_fieldList).grant_storage = r.grant_storage := by
  rcases r with ⟨c, p, s, st, m⟩
  cases c <;> cases p <;> cases s <;> cases st <;> cases m <;> decide

/-- C10: after `revoke_all` no function is granted, and the dirty flag
afterwards is the old flag joined with whether any function was granted
beforehand — so `revoke_all` sets the flag iff something was granted, and
leaves it unchanged on an all-denied instance. -/
theorem revoke_all_permissions_and_dirty (r : UserRestrict) :
    (r.revoke_all).has_any_permissions = false ∧
    (r.revoke_all).modified = (r.modified || r.has_any_permissions) := by
  rcases r with ⟨c, p, s, st, m⟩
  cases c <;> cases p <;> cases s <;> cases st <;> cases m <;> decide

/-- Helper for C3: a `foldl` of further `set_user_code` reassignments never
overwrites an already-captured `_orig_user_code`. -/
theorem foldl_set_user_code_orig (l : List Int) (u : User) (o : Int)
    (h : u._orig_user_code = some o) :
    (l.foldl User.set_user_code u)._orig_user_code = some o := by
  induction l generalizing u with
  | nil => exact h
  | cons x xs ih => exact ih _ (by simp [User.set_user_code, h])

/-- C3: for an account with no pending capture (`_orig_user_code` absent, as
after construction or a flush), `orig_user_code` reads the current code;
after a first reassignment followed by any further reassignments the
pre-reassignment code is retained; and `notify_flushed` collapses
`orig_user_code` back to the then-current code. -/
theorem orig_user_code_single_capture (u : User) (h : u._orig_user_code = none)
    (c : Int) (l : List Int) :
    u.orig_user_code = u.user_code ∧
    (u.notify_flushed).orig_user_code = (u.notify_flushed).user_code ∧
    (l.foldl User.set_user_code (u.set_user_code c)).orig_user_code = u.user_code ∧
    ((l.foldl User.set_user_code (u.set_user_code c)).notify_flushed).orig_user_code
      = (l.foldl User.set_user_code (u.set_user_code c)).user_code := by
  refine ⟨?_, ?_, ?_, ?_⟩
  · simp [User.orig_user_code, h]
  · simp [User.orig_user_code, User.notify_flushed]
  · have hc : (u.set_user_code c)._orig_user_code = some u.user_code := by
      simp [User.set_user_code, h]
    simp [User.orig_user_code, foldl_set_user_code_orig l _ _ hc]
  · simp [User.orig_user_code, User.notify_flushed]

/-- A fresh account with code 100 (the spec's rename example), as built by a
successful `User.make 100 "x" none none none`. -/
def u100 : User :=
  { user_code := 100, _orig_user_code := none, name := "x", internal_name := none,
    restrict := none, stats := none, _restriction := none }

/-- C3 witness: code 100, set 200, set 300 reads `orig_user_code` 100; after
`notify_flushed` it reads the current code 300. -/
theorem orig_user_code_single_capture_sample :
    ((u100.set_user_code 200).set_user_code 300).orig_user_code = 100 ∧
    (((u100.set_user_code 200).set_user_code 300).notify_flushed).orig_user_code = 300 :=
  ⟨(orig_user_code_single_capture u100 rfl 200 [300]).2.2.1,
   (orig_user_code_single_capture u100 rfl 200 [300]).2.2.2⟩

/-- C5 counterexample: the claim says attaching a fresh non-null restriction
to an account unconditionally sets its dirty flag; but `User.__init__`
assigns the plain `restrict` attribute (the dirty-marking property is named
`restriction` and is bypassed), so the account built with an all-default
restriction still carries it with `modified = False`. -/
theorem restrict_attach_constructor_cex :
    (User.make 1 "a" (some (UserRestrict.make false false false false)) none none).map
        (fun u => u.restrict.map (fun r => r.modified)) = Except.ok (some false) ∧
    ¬ ((User.make 1 "a" (some (UserRestrict.make false false false false)) none none).map
        (fun u => u.restrict.map (fun r => r.modified)) = Except.ok (some true)) :=
  ⟨rfl, fun h => Bool.noConfusion (Option.some.inj (Except.ok.inj h))⟩

/-- C5 (amended): the `restriction` property setter (`_set_restriction`)
unconditionally marks a non-null restriction dirty when it stores it into
the `_restriction` slot; but the attachment actually performed by the
constructor and by the session's load loop is the plain `restrict` attribute
assignment, which leaves the restriction's dirty flag untouched. -/
theorem restriction_property_marks_dirty (u : User) (r : UserRestrict) (c : Int)
    (nm : String) (st : Option UserStatistics) (i : Option Int)
    (h : ¬ nm.length > User.MAX_NAME_LEN) :
    (u.set_restriction (some r))._restriction = some (some { r with modified := true }) ∧
    (u.attach_restrict (some r)).restrict = some r ∧
    (User.make c nm (some r) st i).map User.restrict = Except.ok (some r) := by
  refine ⟨rfl, rfl, ?_⟩
  simp [User.make, h, Except.map]

/-- C5 witness: the amended claim at a concrete account and restriction. -/
theorem restriction_property_marks_dirty_sample :
    (u100.set_restriction (some (UserRestrict.make true false false false)))._restriction
        = some (some { UserRestrict.make true false false false with modified := true }) ∧
    (u100.attach_restrict (some (UserRestrict.make true false false false))).restrict
        = some (UserRestrict.make true false false false) ∧
    (User.make 1 "a" (some (UserRestrict.make true false false false)) none none).map
        User.restrict = Except.ok (some (UserRestrict.make true false false false)) :=
  restriction_property_marks_dirty u100 (UserRestrict.make true false false false)
    1 "a" none none (by decide)

/-- C8: setting an account name longer than `MAX_NAME_LEN = 20` characters
raises the local validation error (`UserMaintError`, the source's only
error class, raised before any assignment, so the stored name is untouched);
a name of exactly 20 characters is accepted and stored. -/
theorem set_name_length_validation (u : User) (nm : String) :
    (nm.length > User.MAX_NAME_LEN →
      u.set_name nm = Except.error { msg := nameTooLongMsg nm, code := none }) ∧
    (nm.length = 20 → u.set_name nm = Except.ok { u with name := nm }) := by
  constructor
  · intro h
    simp [User.set_name, h]
  · intro h
    have : ¬ nm.length > User.MAX_NAME_LEN := by
      simp [User.MAX_NAME_LEN, h]
    simp [User.set_name, this]

/-- C8 witness: a 21-character name is rejected with the validation error, a
20-character name is accepted. -/
theorem set_name_length_validation_sample :
    u100.set_name "abcdefghijklmnopqrstu"
        = Except.error { msg := nameTooLongMsg "abcdefghijklmnopqrstu", code := none } ∧
    u100.set_name "abcdefghijklmnopqrst"
        = Except.ok { u100 with name := "abcdefghijklmnopqrst" } :=
  ⟨(set_name_length_validation u100 "abcdefghijklmnopqrstu").1 (by decide),
   (set_name_length_validation u100 "abcdefghijklmnopqrst").2 (by decide)⟩

/-- A dirty restriction attached to the C1 account. -/
def aliceRestrict : UserRestrict :=
  { grant_copy := true, grant_printer := false, grant_scanner := false,
    grant_storage := false, modified := true }

/-- Dirty statistics attached to the C1 account. -/
def aliceStats : UserStatistics :=
  { copy_a4 := 3, copy_a3 := 0, print_a4 := 0, print_a3 := 0, scan_a4 := 0,
    scan_a3 := 0, modified := true }

/-- The C1 account: internal name 7, dirty restriction and dirty
statistics. -/
def alice : User :=
  { user_code := 1, _orig_user_code := none, name := "alice",
    internal_name := some 7, restrict := some aliceRestrict,
    stats := some aliceStats, _restriction := none }

/-- C1: evaluation of `set_user_info` at the claim's failing input — the
backend reports `"NG"` for the restriction write of an account whose
restriction is dirty.  The session does raise the maintenance error and the
statistics write is not attempted, as the claim says; but the trace of
device-management calls performed is exactly
`[StartSession, LockDevice, UpdateObject usageControl.userRestrict]`:
`UnlockDevice` is never called, so the device lock is NOT released before
the error is surfaced, contradicting the claim's final part (the raise at
accounts.py:523 skips the unlock at accounts.py:532). -/
theorem set_user_info_failed_restrict_write :
    (UserMaintSession.set_user_info "NG" "OK" alice).2
        = Except.error (PyError.maint
            { msg := "Could not update the user restrictions for user alice", code := none }) ∧
    (UserMaintSession.set_user_info "NG" "OK" alice).1
        = [DmOp.startSession, DmOp.lockDevice,
           DmOp.updateObject "usageControl.userRestrict" 1100027 aliceRestrict.to_fieldList] ∧
    ((UserMaintSession.set_user_info "NG" "OK" alice).1.all
        (fun op => !(DmOp.isCounterUpdate op))) = true ∧
    DmOp.unlockDevice ∉ (UserMaintSession.set_user_info "NG" "OK" alice).1 := by
  refine ⟨rfl, rfl, rfl, ?_⟩
  decide

/-- Helper for C9: updating the same key twice collapses to the last
update. -/
theorem update_update {α β : Type} [DecidableEq α] (f : α → β) (k : α) (v w : β) :
    Function.update (Function.update f k v) k w = Function.update f k w := by
  funext x
  by_cases hx : x = k <;> simp [Function.update, hx]

/-- C9 (amended): `delete_user` of a code absent from the cache returns
without raising and performs no backend call; `delete_user` never raises
(the embedding is total because the source has no raise path), and calling
it twice in a row for the same code leaves the backend directory state
unchanged after the first call — the second call is idempotent in effect,
though for a cached code it repeats the same soft-delete write (the cache is
not updated by deletion) rather than skipping the backend entirely. -/
theorem delete_user_idempotent_effect (users : List User)
    (dir : String → Option String) (c : Int) :
    (UserMaintSession.get_user_info users c = none →
      UserMaintSession.delete_user users dir c = ([], dir)) ∧
    (UserMaintSession.delete_user users
        ((UserMaintSession.delete_user users dir c).2) c).2
      = (UserMaintSession.delete_user users dir c).2 ∧
    (UserMaintSession.delete_user users
        ((UserMaintSession.delete_user users dir c).2) c).1
      = (UserMaintSession.delete_user users dir c).1 := by
  rcases h : UserMaintSession.get_user_info users c with _ | u
  · refine ⟨fun _ => ?_, ?_, ?_⟩ <;> simp [UserMaintSession.delete_user, h]
  · refine ⟨fun hn => ?_, ?_, ?_⟩
    · exact Option.noConfusion hn
    · simp [UserMaintSession.delete_user, h, update_update]
    · simp [UserMaintSession.delete_user, h]

/-- C9 witness: deleting code 5 from an empty cache is a successful no-op
with no backend call. -/
theorem delete_user_idempotent_effect_sample :
    UserMaintSession.delete_user [] (fun _ => none) 5 = ([], fun _ => none) :=
  (delete_user_idempotent_effect [] (fun _ => none) 5).1 rfl

/-- A cached account with code 5 and internal name 7, for the C9
counterexample. -/
def bob : User :=
  { user_code := 5, _orig_user_code := none, name := "bob",
    internal_name := some 7, restrict := none, stats := none,
    _restriction := none }

/-- C9 counterexample: the claim calls the second of two consecutive
`delete_user` calls for the same code a no-op; but `delete_user` never
removes the account from the cache, so with `bob` (code 5) cached the second
call still finds him and issues the soft-delete backend write again — its
trace of directory calls is nonempty, not a no-op. -/
theorem delete_user_second_call_not_noop :
    (UserMaintSession.delete_user [bob]
        ((UserMaintSession.delete_user [bob] (fun _ => none) 5).2) 5).1
      = [UdOp.startSession "X", UdOp.putObjectProps "entry:7" "auth:" "false",
         UdOp.terminateSession] ∧
    (UserMaintSession.delete_user [bob]
        ((UserMaintSession.delete_user [bob] (fun _ => none) 5).2) 5).1 ≠ [] := by
  refine ⟨rfl, ?_⟩
  intro h
  cases h
